import Mathlib

/-!
Verification development for the `next-lessons` repository: a shallow
embedding of the authentication utilities (`src/lib/auth/jwt.ts`,
`src/lib/auth/auth.ts`), the route-protection middleware
(`src/app/middleware.ts`), the posts CRUD route handlers
(`src/app/api/posts/route.ts`), the optimistic-UI mock server call
(`src/app/optimistic/page.tsx`) and the tag-based cache demo
(`src/lib/cache/posts.ts`, `src/app/cache/actions.ts`,
`src/app/cache/page.tsx`), together with theorems settling the
behavioural claims about them.

The `jose` signing/verification library and the framework's cache are
external to the repository; they are modelled abstractly (a token is a
record of the signed payload and of the claims the pipeline sets; tag
invalidation marks every entry carrying the tag stale, per the glossary).
JavaScript strings are modelled as `String`, JavaScript numbers occurring
here (integral ids) as `Int`, and JavaScript truthiness of a string `s`
as `s ≠ ""`.
-/

set_option maxRecDepth 65536

namespace NextLessons

/-! ## JWT utilities — `src/lib/auth/jwt.ts` -/

/-- The payload `generateToken` signs: `{ userId, username, role }`. -/
structure JwtPayload where
  userId : Int
  username : String
  role : String
  deriving DecidableEq, Repr

/-- Abstract model of a `jose` JWS: the signed payload together with the
signing key and the registered claims the `SignJWT` pipeline sets
(`iss`, `aud`, `iat`, `exp`). -/
structure JwtToken where
  payload : JwtPayload
  key : String
  issuer : String
  audience : String
  iat : Nat
  exp : Nat
  deriving DecidableEq, Repr

/-- `secretKey` from `src/lib/auth/jwt.ts` (hardcoded demo key). -/
def secretKey : String := "your-very-secure-secret-key-at-least-32-characters-long"

/-- `JWT_CONFIG` from `src/lib/auth/jwt.ts`; `expiresIn: '1h'` is 3600 s. -/
structure JwtConfig where
  issuer : String
  audience : String
  expiresInSeconds : Nat
  deriving Repr

def JWT_CONFIG : JwtConfig :=
  { issuer := "next-methods-demo"
    audience := "next-methods-client"
    expiresInSeconds := 3600 }

/-- `generateToken(userId, username, role)`: signs `{userId, username, role}`
with `secretKey`, setting issued-at to the current time `now`, issuer and
audience from `JWT_CONFIG`, and expiration one hour after `now`. -/
def generateToken (now : Nat) (userId : Int) (username role : String) : JwtToken :=
  { payload := { userId := userId, username := username, role := role }
    key := secretKey
    issuer := JWT_CONFIG.issuer
    audience := JWT_CONFIG.audience
    iat := now
    exp := now + JWT_CONFIG.expiresInSeconds }

/-- `verifyToken(token)`: `jwtVerify(token, secretKey, { issuer, audience })`,
modelled as checking that the token was signed with `secretKey`, that its
`iss`/`aud` claims match `JWT_CONFIG`, and that it has not expired at the
current time `now`; all failures collapse into the single thrown error. -/
def verifyToken (now : Nat) (token : JwtToken) : Except String JwtPayload :=
  if token.key = secretKey ∧ token.issuer = JWT_CONFIG.issuer ∧
      token.audience = JWT_CONFIG.audience ∧ now < token.exp then
    Except.ok token.payload
  else
    Except.error "Invalid or expired authentication token"

/-- One entry of `mockUsers` in `src/lib/auth/jwt.ts`. -/
structure MockUser where
  id : Int
  username : String
  password : String
  role : String
  deriving DecidableEq, Repr

/-- `mockUsers` from `src/lib/auth/jwt.ts`. -/
def mockUsers : List MockUser :=
  [ { id := 1, username := "demo", password := "password123", role := "user" },
    { id := 2, username := "admin", password := "admin123", role := "admin" } ]

/-- `findUser(username, password)`: `mockUsers.find(u => u.username === username
&& u.password === password) || null`. -/
def findUser (username password : String) : Option MockUser :=
  mockUsers.find? (fun u => u.username == username && u.password == password)

/-! ## Authentication flow — `src/lib/auth/auth.ts` -/

/-- The `user` object in the success body of `authenticate`. -/
structure AuthUser where
  id : Int
  username : String
  role : String
  deriving DecidableEq, Repr

/-- One appended `Set-Cookie` header; `token = none` models the empty value
written by `clearAuthCookie`. -/
structure SetCookieHeader where
  name : String
  token : Option JwtToken
  maxAge : Nat
  deriving DecidableEq, Repr

/-- The JSON response of `authenticate` together with its status and any
`Set-Cookie` headers appended to it (`NextResponse.json` defaults to 200). -/
structure AuthResponse where
  status : Nat
  success : Bool
  user : Option AuthUser
  setCookies : List SetCookieHeader
  deriving DecidableEq, Repr

/-- `setAuthCookie(response, token)`: appends
`auth-token=${token}; Path=/; HttpOnly; SameSite=Lax; Max-Age=3600`. -/
def setAuthCookie (response : AuthResponse) (token : JwtToken) : AuthResponse :=
  { response with
      setCookies :=
        response.setCookies ++ [{ name := "auth-token", token := some token, maxAge := 3600 }] }

/-- `authenticate(username, password)`: finds the user; on a match returns the
200 success body with the user's id/username/role and the auth cookie
holding the generated token; otherwise the thrown error is caught and a
401 `{ success: false }` response without any cookie is returned. -/
def authenticate (now : Nat) (username password : String) : AuthResponse :=
  match findUser username password with
  | some user =>
      let token := generateToken now user.id user.username user.role
      setAuthCookie
        { status := 200
          success := true
          user := some { id := user.id, username := user.username, role := user.role }
          setCookies := [] }
        token
  | none =>
      { status := 401, success := false, user := none, setCookies := [] }

/-! ## Route-protection middleware — `src/app/middleware.ts` -/

/-- The parts of a `NextRequest` the middleware reads: `nextUrl.pathname`,
`request.url`, and the value of the `auth-token` cookie
(`none` when the cookie is absent). -/
structure MiddlewareRequest where
  pathname : String
  url : String
  authTokenCookie : Option String
  deriving DecidableEq, Repr

/-- A URL built by `new URL(path, base)` plus `searchParams.set` calls. -/
structure BuiltUrl where
  base : String
  path : String
  searchParams : List (String × String)
  deriving DecidableEq, Repr

/-- The middleware's outcome: `NextResponse.redirect(url)` or
`NextResponse.next()`. -/
inductive MiddlewareResult where
  | redirect (url : BuiltUrl)
  | next
  deriving DecidableEq, Repr

/-- JavaScript truthiness of `request.cookies.get('auth-token')?.value`:
`undefined` (absent cookie) and the empty string are falsy. -/
def cookieTruthy : Option String → Bool
  | none => false
  | some s => !(s == "")

/-- JavaScript `s.startsWith(pre)`: `pre`'s characters are a prefix of
`s`'s. -/
def jsStartsWith (s pre : String) : Bool :=
  pre.data.isPrefixOf s.data

/-- `pathname.startsWith('/dashboard') || pathname.startsWith('/auth/protected')`. -/
def isProtectedRoute (pathname : String) : Bool :=
  jsStartsWith pathname "/dashboard" || jsStartsWith pathname "/auth/protected"

/-- `middleware(request)` from `src/app/middleware.ts`: redirects
unauthenticated requests for protected routes to `/auth/login` with a
`redirect` search parameter, redirects authenticated requests for
`/auth/login` to `/dashboard`, and continues otherwise. -/
def middleware (request : MiddlewareRequest) : MiddlewareResult :=
  let authToken := cookieTruthy request.authTokenCookie
  let isAuthenticated := authToken || (request.pathname == "/auth/login")
  if isProtectedRoute request.pathname && !isAuthenticated then
    .redirect { base := request.url, path := "/auth/login"
                searchParams := [("redirect", request.pathname)] }
  else if request.pathname == "/auth/login" && authToken then
    .redirect { base := request.url, path := "/dashboard", searchParams := [] }
  else
    .next

/-- Whether a middleware outcome is a redirect to the login page. -/
def redirectsToLogin : MiddlewareResult → Bool
  | .redirect url => url.path == "/auth/login"
  | .next => false

/-! ## Posts CRUD route handlers — `src/app/api/posts/route.ts` -/

/-- One element of the module-level `mockPosts` array. -/
structure Post where
  id : Int
  title : String
  content : String
  deriving DecidableEq, Repr

/-- The initial value of `mockPosts` in `src/app/api/posts/route.ts`. -/
def initialMockPosts : List Post :=
  [ { id := 1, title := "First Post", content := "This is the first post content" },
    { id := 2, title := "Second Post", content := "This is the second post content" },
    { id := 3, title := "Third Post", content := "This is the third post content" } ]

/-- A request body as seen by `postSchema.parse`: each field is either a
string or missing (non-string JSON values behave like missing here: both
produce a single schema issue on that field). -/
structure PostBody where
  title : Option String
  content : Option String
  deriving DecidableEq, Repr

/-- One zod issue, already in the `{ field, message }` shape the POST
handler maps `issue.path.join('.')` / `issue.message` into. -/
structure ZodIssue where
  field : String
  message : String
  deriving DecidableEq, Repr

/-- The issues zod raises for one `z.string().min(minLen).max(maxLen)`
field: a required error when missing, otherwise a too-short and/or
too-long error. -/
def fieldIssues (field : String) (minLen maxLen : Nat) : Option String → List ZodIssue
  | none => [{ field := field, message := "Required" }]
  | some s =>
      (if s.length < minLen then
        [{ field := field
           message := "String must contain at least " ++ toString minLen ++ " character(s)" }]
      else []) ++
      (if maxLen < s.length then
        [{ field := field
           message := "String must contain at most " ++ toString maxLen ++ " character(s)" }]
      else [])

/-- All issues `postSchema` raises on a body:
`title: z.string().min(3).max(100)`, `content: z.string().min(10).max(1000)`. -/
def postSchemaIssues (body : PostBody) : List ZodIssue :=
  fieldIssues "title" 3 100 body.title ++ fieldIssues "content" 10 1000 body.content

/-- The value `postSchema.parse` returns on success. -/
structure ValidatedPost where
  title : String
  content : String
  deriving DecidableEq, Repr

/-- `postSchema.parse(body)`: the validated data, or the thrown `ZodError`'s
issue list. -/
def postSchemaParse (body : PostBody) : Except (List ZodIssue) ValidatedPost :=
  match body.title, body.content with
  | some t, some c =>
      match postSchemaIssues { title := some t, content := some c } with
      | [] => .ok { title := t, content := c }
      | issues => .error issues
  | t?, c? => .error (postSchemaIssues { title := t?, content := c? })

/-- The JSON body and status of a posts-route response. `details` carries
the validation issues (the POST handler maps them to `{field, message}`
pairs; the PUT handler returns the raw issues, which hold the same data). -/
structure ApiResponse where
  status : Nat
  success : Bool
  data : Option Post
  error : Option String
  details : Option (List ZodIssue)
  deriving DecidableEq, Repr

/-- `POST(request)`: validates the body, appends a post with
`id = mockPosts.length + 1` and returns 201; a `ZodError` yields 400 with
`error: 'Validation failed'` and per-field details, leaving the list
unchanged. Returned alongside the updated `mockPosts`. -/
def POST (posts : List Post) (body : PostBody) : List Post × ApiResponse :=
  match postSchemaParse body with
  | .ok v =>
      let newPost : Post := { id := (posts.length : Int) + 1, title := v.title, content := v.content }
      (posts ++ [newPost],
        { status := 201, success := true, data := some newPost, error := none, details := none })
  | .error issues =>
      (posts,
        { status := 400, success := false, data := none
          error := some "Validation failed", details := some issues })

/-- The characters `Number()` trims: WhiteSpace (TAB, VT, FF, SP, NBSP,
ZWNBSP and the Unicode Zs category) and LineTerminator (LF, CR, LS, PS). -/
def jsWhitespaceChar (c : Char) : Bool :=
  c == ' ' || c == '\t' || c == '\n' || c == '\r' ||
  c == '\x0b' || c == '\x0c' || c == ' ' || c == '﻿' ||
  c == ' ' || c == ' ' || c == ' ' || c == ' ' ||
  c == ' ' || c == ' ' || c == ' ' || c == ' ' ||
  c == ' ' || c == ' ' || c == ' ' || c == ' ' ||
  c == ' ' || c == ' ' || c == ' ' || c == ' ' ||
  c == '　'

/-- Splits a character list into its leading run of decimal digits and the
rest. -/
def takeDigits : List Char → List Char × List Char
  | [] => ([], [])
  | c :: rest =>
      if c.isDigit then
        let r := takeDigits rest
        (c :: r.1, r.2)
      else ([], c :: rest)

/-- The natural number denoted by a list of decimal digits. -/
def decimalDigitsToNat (l : List Char) : Nat :=
  l.foldl (fun a c => a * 10 + (c.toNat - 48)) 0

/-- A full run of decimal digits (at least one, nothing else), as a `Nat`. -/
def parseUnsignedInt (l : List Char) : Option Nat :=
  if l ≠ [] ∧ l.all Char.isDigit then some (decimalDigitsToNat l) else none

/-- An optionally signed full run of decimal digits (the exponent of a
decimal literal). -/
def parseSignedInt (l : List Char) : Option Int :=
  match l with
  | '+' :: rest => (parseUnsignedInt rest).map (fun n => (n : Int))
  | '-' :: rest => (parseUnsignedInt rest).map (fun n => -(n : Int))
  | _ => (parseUnsignedInt l).map (fun n => (n : Int))

/-- StrUnsignedDecimalLiteral without the `Infinity` alternative:
`digits [. digits] [e sign digits]`, `. digits [e sign digits]` — at least
one digit overall, the whole list consumed. Returns `(mant, ex)` standing
for the exact mathematical value `mant * 10 ^ ex`. -/
def parseDecimalLiteral (l : List Char) : Option (Nat × Int) :=
  let ip := (takeDigits l).1
  let r1 := (takeDigits l).2
  let fp :=
    match r1 with
    | '.' :: rest => (takeDigits rest).1
    | _ => []
  let r2 :=
    match r1 with
    | '.' :: rest => (takeDigits rest).2
    | _ => r1
  if ip = [] ∧ fp = [] then none
  else
    match r2 with
    | [] => some (decimalDigitsToNat (ip ++ fp), -(fp.length : Int))
    | e :: rest =>
        if e == 'e' || e == 'E' then
          match parseSignedInt rest with
          | some ex => some (decimalDigitsToNat (ip ++ fp), ex - (fp.length : Int))
          | none => none
        else none

/-- A full run of digits of the given base (at least one, nothing else),
via the digit test `ok` and digit value `val`. -/
def parseBaseNat (base : Nat) (ok : Char → Bool) (val : Char → Nat)
    (l : List Char) : Option Nat :=
  if l ≠ [] ∧ l.all ok then some (l.foldl (fun a c => a * base + val c) 0) else none

def isHexDigitChar (c : Char) : Bool :=
  c.isDigit || ("abcdefABCDEF".data.contains c)

def hexDigitVal (c : Char) : Nat :=
  if c.isDigit then c.toNat - 48
  else if "abcdef".data.contains c then c.toNat - 87
  else c.toNat - 55

def isOctalDigitChar (c : Char) : Bool :=
  "01234567".data.contains c

def isBinaryDigitChar (c : Char) : Bool :=
  c == '0' || c == '1'

/-- `floorLog2` auxiliary: structural recursion on an explicit fuel. -/
def log2Aux : Nat → Nat → Nat
  | 0, _ => 0
  | fuel + 1, n => if 2 ≤ n then log2Aux fuel (n / 2) + 1 else 0

/-- `⌊log₂ n⌋` for `n ≥ 1` (and 0 for `n = 0`). -/
def floorLog2 (n : Nat) : Nat := log2Aux n n

/-- The largest `f` with `2 ^ f ≤ num / den`, for `num, den ≥ 1`. -/
def ratFloorLog2 (num den : Nat) : Int :=
  let a : Int := floorLog2 num
  let b : Int := floorLog2 den
  if den * 2 ^ (a - b).toNat ≤ num * 2 ^ (b - a).toNat then a - b else a - b - 1

/-- Rounds `num / den` to the nearest integer, ties to even. -/
def roundHalfEven (num den : Nat) : Nat :=
  let q := num / den
  let r := num % den
  if 2 * r < den then q
  else if den < 2 * r then q + 1
  else if q % 2 = 0 then q else q + 1

/-- Rounds the non-negative rational `num / den` to the nearest IEEE-754
binary64 value (round ties to even, with the subnormal range's fixed
`2 ^ -1074` grid and overflow to infinity at `2 ^ 1024`): `some n` when
the result is the finite double with exact integer value `n`, `none` when
it is infinite or finite but non-integral. (`den = 0` does not occur at
the call sites.) -/
def doubleRoundToIntQ (num den : Nat) : Option Int :=
  if num = 0 ∨ den = 0 then some 0
  else
    let e : Int := max (ratFloorLog2 num den - 52) (-1074)
    let m := roundHalfEven (num * 2 ^ (-e).toNat) (den * 2 ^ e.toNat)
    if 2 ^ 1024 * 2 ^ (-e).toNat ≤ m * 2 ^ e.toNat then none
    else if 0 ≤ e then some ((m * 2 ^ e.toNat : Nat) : Int)
    else if m % 2 ^ (-e).toNat = 0 then some ((m / 2 ^ (-e).toNat : Nat) : Int)
    else none

/-- The signed decimal alternatives of StrNumericLiteral: `Infinity` (an
infinite double, hence `none`) or a decimal literal, whose exact value
`mant * 10 ^ ex` is rounded to binary64. -/
def jsUnsignedDecimalValue (l : List Char) (neg : Bool) : Option Int :=
  if l = ['I', 'n', 'f', 'i', 'n', 'i', 't', 'y'] then none
  else
    match parseDecimalLiteral l with
    | none => none
    | some (mant, ex) =>
        let r :=
          if 0 ≤ ex then doubleRoundToIntQ (mant * 10 ^ ex.toNat) 1
          else doubleRoundToIntQ mant (10 ^ (-ex).toNat)
        r.map (fun n => if neg then -n else n)

def jsDecimalValue (l : List Char) : Option Int :=
  match l with
  | '+' :: rest => jsUnsignedDecimalValue rest false
  | '-' :: rest => jsUnsignedDecimalValue rest true
  | _ => jsUnsignedDecimalValue l false

/-- JavaScript `Number(s)`, specialised to what the strict equality
`post.id === Number(id)` can observe against an integral `post.id`:
`some n` when `Number(s)` is the finite double with exact integer value
`n`, and `none` when `Number(s)` is `NaN`, an infinity, or finite but
non-integral — in each of those cases the strict equality is false for
every integer. The full StringNumericLiteral grammar is parsed
(whitespace and line-terminator trimming, the empty string to 0, signed
decimal literals with fraction and exponent, `Infinity`, unsigned
hex/octal/binary literals) and the exact mathematical value is rounded to
binary64 by round-ties-to-even, so non-canonical numerals such as
`"2.0"`, `" 2"`, `"0x2"` and `"2e0"` evaluate to `some 2` exactly as
`Number()` does. -/
def jsNumber (s : String) : Option Int :=
  let trimmed := ((s.data.dropWhile jsWhitespaceChar).reverse.dropWhile jsWhitespaceChar).reverse
  match trimmed with
  | [] => some 0
  | c0 :: c1 :: rest =>
      if c0 == '0' && (c1 == 'x' || c1 == 'X') then
        (parseBaseNat 16 isHexDigitChar hexDigitVal rest).bind
          (fun v => doubleRoundToIntQ v 1)
      else if c0 == '0' && (c1 == 'o' || c1 == 'O') then
        (parseBaseNat 8 isOctalDigitChar (fun c => c.toNat - 48) rest).bind
          (fun v => doubleRoundToIntQ v 1)
      else if c0 == '0' && (c1 == 'b' || c1 == 'B') then
        (parseBaseNat 2 isBinaryDigitChar (fun c => c.toNat - 48) rest).bind
          (fun v => doubleRoundToIntQ v 1)
      else jsDecimalValue (c0 :: c1 :: rest)
  | l => jsDecimalValue l

/-- The predicate `post.id === Number(id)`; `NaN` compares unequal to
everything. -/
def postMatchesId (id : String) (post : Post) : Bool :=
  match jsNumber id with
  | none => false
  | some n => post.id == n

/-- `mockPosts.findIndex(...)` followed by
`mockPosts[postIndex] = { ...mockPosts[postIndex], ...validatedData }`:
replaces the title and content of the first matching post in place,
returning the new list and the updated post, or `none` when `findIndex`
gives -1. -/
def updateFirst (pred : Post → Bool) (v : ValidatedPost) : List Post → Option (List Post × Post)
  | [] => none
  | p :: rest =>
      if pred p then
        let updated : Post := { id := p.id, title := v.title, content := v.content }
        some (updated :: rest, updated)
      else
        (updateFirst pred v rest).map (fun r => (p :: r.1, r.2))

/-- `mockPosts.findIndex(...)` followed by `mockPosts.splice(postIndex, 1)`:
removes the first matching post, returning the new list and the removed
post, or `none` when `findIndex` gives -1. -/
def removeFirst (pred : Post → Bool) : List Post → Option (List Post × Post)
  | [] => none
  | p :: rest =>
      if pred p then some (rest, p)
      else (removeFirst pred rest).map (fun r => (p :: r.1, r.2))

/-- The 400 `Post ID is required` response. -/
def idRequiredResponse : ApiResponse :=
  { status := 400, success := false, data := none
    error := some "Post ID is required", details := none }

/-- The 404 `Post not found` response. -/
def notFoundResponse : ApiResponse :=
  { status := 404, success := false, data := none
    error := some "Post not found", details := none }

/-- `PUT(request)`: rejects a missing/empty `id` query parameter (the `!id`
check), then validates the body (a `ZodError` yields 400), then updates the
first post whose id equals `Number(id)` or returns 404. -/
def PUT (posts : List Post) (idParam : Option String) (body : PostBody) :
    List Post × ApiResponse :=
  match idParam with
  | none => (posts, idRequiredResponse)
  | some id =>
      if id == "" then (posts, idRequiredResponse)
      else
        match postSchemaParse body with
        | .error issues =>
            (posts,
              { status := 400, success := false, data := none
                error := some "Validation failed", details := some issues })
        | .ok v =>
            match updateFirst (postMatchesId id) v posts with
            | none => (posts, notFoundResponse)
            | some (posts2, updated) =>
                (posts2,
                  { status := 200, success := true, data := some updated
                    error := none, details := none })

/-- `DELETE(request)`: rejects a missing/empty `id` query parameter, then
removes the first post whose id equals `Number(id)` or returns 404. -/
def DELETE (posts : List Post) (idParam : Option String) : List Post × ApiResponse :=
  match idParam with
  | none => (posts, idRequiredResponse)
  | some id =>
      if id == "" then (posts, idRequiredResponse)
      else
        match removeFirst (postMatchesId id) posts with
        | none => (posts, notFoundResponse)
        | some (posts2, deleted) =>
            (posts2,
              { status := 200, success := true, data := some deleted
                error := none, details := none })

/-! ## Optimistic-UI mock server call — `src/app/optimistic/page.tsx` -/

/-- The result object of `addPost`. -/
structure AddPostResult where
  success : Bool
  post : Option Post
  err : Option String
  deriving DecidableEq, Repr

/-- `addPost(newPost)` from `src/app/optimistic/page.tsx`. The
`Math.random() < 0.2` draw is the `fails` argument; the module-level
`mockPosts` list is passed and returned explicitly. On failure the list is
returned untouched; on success a post with `id = mockPosts.length + 1` and
the given title and content is appended. -/
def addPost (fails : Bool) (posts : List Post) (title content : String) :
    List Post × AddPostResult :=
  if fails then
    (posts, { success := false, post := none
              err := some "Failed to save post. Please try again." })
  else
    let post : Post := { id := (posts.length : Int) + 1, title := title, content := content }
    (posts ++ [post], { success := true, post := some post, err := none })

/-- An entry of the list rendered by `useOptimistic`: a confirmed post or a
pending optimistic one (string temp id, `optimistic: true`). -/
structure OptimisticPost where
  id : Sum Int String
  title : String
  content : String
  optimistic : Bool
  deriving DecidableEq, Repr

/-- The `useOptimistic` reducer in `OptimisticPage`: appends the submitted
post with its temp id, marked optimistic. -/
def addOptimisticPost (currentPosts : List OptimisticPost)
    (title content tempId : String) : List OptimisticPost :=
  currentPosts ++ [{ id := Sum.inr tempId, title := title, content := content, optimistic := true }]

/-- How `useOptimistic` renders a base list once no action is pending: the
confirmed posts, none marked optimistic. -/
def confirmedView (posts : List Post) : List OptimisticPost :=
  posts.map (fun p => { id := Sum.inl p.id, title := p.title, content := p.content, optimistic := false })

/-! ## Tag-based cache demo — `src/lib/cache/posts.ts`,
`src/app/cache/actions.ts`, `src/app/cache/page.tsx` -/

/-- One entry of the framework's data cache: its tag labels and whether it
is still valid (not yet invalidated). -/
structure CacheEntry where
  tags : List String
  valid : Bool
  deriving DecidableEq, Repr

/-- Modelled from the spec: the host framework's tag invalidation
(`updateTag` / `revalidateTag`, external to the repository) under the
glossary semantics — invalidating a label invalidates all cache entries
sharing it, and touches no other entry. -/
def invalidateTag (tag : String) (entries : List CacheEntry) : List CacheEntry :=
  entries.map (fun e => if e.tags.contains tag then { e with valid := false } else e)

/-- The tag list `getCachedPosts` registers via `cacheTag('posts')`. -/
def getCachedPostsTags : List String := ["posts"]

/-- `getCachedPosts()` from `src/lib/cache/posts.ts`: the body ignores its
ambient request context (`ctx`) and returns the literal three-post mock
list. -/
def getCachedPosts (ctx : Nat) : List Post :=
  let _ := ctx
  [ { id := 1, title := "Post A", content := "Content A" },
    { id := 2, title := "Post B", content := "Content B" },
    { id := 3, title := "Post C", content := "Content C" } ]

/-- The world a cache server action runs in: the framework's cache entries
plus all other application state, kept abstract. -/
structure World (σ : Type) where
  cache : List CacheEntry
  other : σ
  deriving Repr

/-- `revalidatePostsImmediately()` from `src/app/cache/actions.ts`:
`updateTag('posts')`. -/
def revalidatePostsImmediately {σ : Type} (w : World σ) : World σ :=
  { w with cache := invalidateTag "posts" w.cache }

/-- `handleAddPost(formData)` from `src/app/cache/page.tsx`: throws when
`title` or `content` is falsy (the empty string), otherwise logs the post
(a no-op on application state) and calls `revalidateTag('posts', 'max')`. -/
def handleAddPost {σ : Type} (title content : String) (w : World σ) :
    Except String (World σ) :=
  if title == "" || content == "" then
    .error "Title and content are required"
  else
    .ok { w with cache := invalidateTag "posts" w.cache }

/-! ## Helper lemmas -/

theorem updateFirst_eq_none (pred : Post → Bool) (v : ValidatedPost) (posts : List Post)
    (h : ∀ p ∈ posts, pred p = false) : updateFirst pred v posts = none := by
  induction posts with
  | nil => rfl
  | cons p rest ih =>
      have hp : pred p = false := h p (by simp)
      have hrest : updateFirst pred v rest = none :=
        ih (fun q hq => h q (List.mem_cons_of_mem p hq))
      simp [updateFirst, hp, hrest]

theorem removeFirst_eq_none (pred : Post → Bool) (posts : List Post)
    (h : ∀ p ∈ posts, pred p = false) : removeFirst pred posts = none := by
  induction posts with
  | nil => rfl
  | cons p rest ih =>
      have hp : pred p = false := h p (by simp)
      have hrest : removeFirst pred rest = none :=
        ih (fun q hq => h q (List.mem_cons_of_mem p hq))
      simp [removeFirst, hp, hrest]

theorem updateFirst_append (pred : Post → Bool) (v : ValidatedPost)
    (pre suf : List Post) (old : Post)
    (hpre : ∀ p ∈ pre, pred p = false) (hold : pred old = true) :
    updateFirst pred v (pre ++ old :: suf) =
      some (pre ++ { id := old.id, title := v.title, content := v.content } :: suf,
        { id := old.id, title := v.title, content := v.content }) := by
  induction pre with
  | nil => simp [updateFirst, hold]
  | cons p rest ih =>
      have hp : pred p = false := hpre p (by simp)
      have hrest := ih (fun q hq => hpre q (List.mem_cons_of_mem p hq))
      simp [updateFirst, hp, hrest]

theorem removeFirst_append (pred : Post → Bool) (pre suf : List Post) (old : Post)
    (hpre : ∀ p ∈ pre, pred p = false) (hold : pred old = true) :
    removeFirst pred (pre ++ old :: suf) = some (pre ++ suf, old) := by
  induction pre with
  | nil => simp [removeFirst, hold]
  | cons p rest ih =>
      have hp : pred p = false := hpre p (by simp)
      have hrest := ih (fun q hq => hpre q (List.mem_cons_of_mem p hq))
      simp [removeFirst, hp, hrest]

theorem all_not_iff_pred_false (pred : Post → Bool) (posts : List Post) :
    posts.all (fun p => ! pred p) = true ↔ ∀ p ∈ posts, pred p = false := by
  simp [List.all_eq_true]

/-! ## Claim theorems -/

/-- C1: for every userId, username and role, `verifyToken` applied to the
token produced by `generateToken(userId, username, role)` succeeds (at any
time before the one-hour expiry) and returns a payload whose userId,
username and role equal those inputs, under the fixed issuer
`next-methods-demo` and audience `next-methods-client`. -/
theorem jwt_roundtrip (userId : Int) (username role : String) (t now : Nat)
    (h : now < t + 3600) :
    verifyToken now (generateToken t userId username role) =
      Except.ok { userId := userId, username := username, role := role } := by
  simp [verifyToken, generateToken, JWT_CONFIG, h]

theorem jwt_roundtrip_witness :
    (0 : Nat) < 0 + 3600 ∧
      verifyToken 0 (generateToken 0 1 "demo" "user") =
        Except.ok { userId := 1, username := "demo", role := "user" } :=
  ⟨by decide, jwt_roundtrip 1 "demo" "user" 0 0 (by decide)⟩

/-- C2: `authenticate(username, password)` returns the 200 success response
with the matched user's id, username and role and a `Set-Cookie` header
holding the generated JWT exactly when the pair matches one of the two
mock users; otherwise it returns status 401 with `success: false` and
appends no auth cookie. -/
theorem authenticate_spec (now : Nat) (username password : String) :
    (∀ u, findUser username password = some u →
        u ∈ mockUsers ∧ u.username = username ∧ u.password = password ∧
        authenticate now username password =
          { status := 200, success := true
            user := some { id := u.id, username := u.username, role := u.role }
            setCookies := [{ name := "auth-token"
                             token := some (generateToken now u.id u.username u.role)
                             maxAge := 3600 }] }) ∧
    (findUser username password = none →
        authenticate now username password =
          { status := 401, success := false, user := none, setCookies := [] }) ∧
    ((∃ u ∈ mockUsers, u.username = username ∧ u.password = password) ↔
      (authenticate now username password).success = true) := by
  refine ⟨?_, ?_, ?_⟩
  · intro u hu
    have hmem : u ∈ mockUsers := List.mem_of_find?_eq_some hu
    have hpred := List.find?_some hu
    rw [Bool.and_eq_true, beq_iff_eq, beq_iff_eq] at hpred
    exact ⟨hmem, hpred.1, hpred.2, by simp [authenticate, hu, setAuthCookie]⟩
  · intro hnone
    simp [authenticate, hnone]
  · constructor
    · rintro ⟨u, hmem, hun, hpw⟩
      rcases hfind : findUser username password with _ | u2
      · exfalso
        have := (List.find?_eq_none).mp hfind u hmem
        simp [hun, hpw] at this
      · simp [authenticate, hfind, setAuthCookie]
    · intro hsucc
      rcases hfind : findUser username password with _ | u
      · simp [authenticate, hfind] at hsucc
      · have hmem : u ∈ mockUsers := List.mem_of_find?_eq_some hfind
        have hpred := List.find?_some hfind
        rw [Bool.and_eq_true, beq_iff_eq, beq_iff_eq] at hpred
        exact ⟨u, hmem, hpred.1, hpred.2⟩

theorem authenticate_spec_witness :
    authenticate 0 "demo" "password123" =
      { status := 200, success := true
        user := some { id := 1, username := "demo", role := "user" }
        setCookies := [{ name := "auth-token"
                         token := some (generateToken 0 1 "demo" "user")
                         maxAge := 3600 }] } ∧
    authenticate 0 "demo" "wrong" =
      { status := 401, success := false, user := none, setCookies := [] } :=
  ⟨((authenticate_spec 0 "demo" "password123").1
      { id := 1, username := "demo", password := "password123", role := "user" }
      (by decide)).2.2.2,
   (authenticate_spec 0 "demo" "wrong").2.1 (by decide)⟩

/-- C3 counterexample: a request for `/dashboard` that carries an
`auth-token` cookie with the empty value is redirected to the login page
(the middleware tests the cookie value's truthiness, and the empty string
is falsy), contradicting the claim that a request carrying an `auth-token`
cookie is never redirected to the login page. -/
theorem middleware_empty_cookie_redirects :
    middleware { pathname := "/dashboard", url := "http://localhost:3000/dashboard"
                 authTokenCookie := some "" } =
      .redirect { base := "http://localhost:3000/dashboard", path := "/auth/login"
                  searchParams := [("redirect", "/dashboard")] } := by
  decide

/-- C3 (amended): a request whose pathname starts with `/dashboard` or
`/auth/protected` and carries no `auth-token` cookie is redirected to
`/auth/login` with a `redirect` search parameter equal to the pathname;
a request carrying an `auth-token` cookie with a non-empty value is never
redirected to the login page. -/
theorem middleware_protected_routes (p u : String)
    (hp : isProtectedRoute p = true) :
    middleware { pathname := p, url := u, authTokenCookie := none } =
      .redirect { base := u, path := "/auth/login", searchParams := [("redirect", p)] } ∧
    ∀ v, v ≠ "" →
      redirectsToLogin (middleware { pathname := p, url := u, authTokenCookie := some v })
        = false := by
  constructor
  · have hne : p ≠ "/auth/login" := by
      intro he
      rw [he] at hp
      exact absurd hp (by decide)
    have hbe : (p == "/auth/login") = false := beq_eq_false_iff_ne.mpr hne
    simp [middleware, cookieTruthy, hp, hbe]
  · intro v hv
    have hbe : (v == "") = false := beq_eq_false_iff_ne.mpr hv
    by_cases hlogin : p = "/auth/login"
    · simp [middleware, cookieTruthy, hbe, hlogin, redirectsToLogin]
    · have hble : (p == "/auth/login") = false := beq_eq_false_iff_ne.mpr hlogin
      simp [middleware, cookieTruthy, hbe, hble, redirectsToLogin]

theorem middleware_protected_routes_witness :
    isProtectedRoute "/dashboard" = true ∧
    (middleware { pathname := "/dashboard", url := "http://x", authTokenCookie := none } =
        .redirect { base := "http://x", path := "/auth/login"
                    searchParams := [("redirect", "/dashboard")] } ∧
      redirectsToLogin
        (middleware { pathname := "/dashboard", url := "http://x"
                      authTokenCookie := some "tok" }) = false) :=
  ⟨by decide,
   (middleware_protected_routes "/dashboard" "http://x" (by decide)).1,
   (middleware_protected_routes "/dashboard" "http://x" (by decide)).2 "tok" (by decide)⟩

/-- C4: for two requests with the same pathname and URL that both carry a
non-empty `auth-token` cookie, the middleware returns the same decision
regardless of the two cookie values, and a protected route is granted
(`NextResponse.next()`) to any non-empty cookie value. -/
theorem middleware_ignores_cookie_value (p u v1 v2 : String)
    (h1 : v1 ≠ "") (h2 : v2 ≠ "") :
    middleware { pathname := p, url := u, authTokenCookie := some v1 } =
      middleware { pathname := p, url := u, authTokenCookie := some v2 } ∧
    (isProtectedRoute p = true →
      middleware { pathname := p, url := u, authTokenCookie := some v1 } = .next) := by
  have hb1 : (v1 == "") = false := beq_eq_false_iff_ne.mpr h1
  have hb2 : (v2 == "") = false := beq_eq_false_iff_ne.mpr h2
  constructor
  · simp [middleware, cookieTruthy, hb1, hb2]
  · intro hp
    have hne : p ≠ "/auth/login" := by
      intro he
      rw [he] at hp
      exact absurd hp (by decide)
    have hbe : (p == "/auth/login") = false := beq_eq_false_iff_ne.mpr hne
    simp [middleware, cookieTruthy, hb1, hbe]

theorem middleware_ignores_cookie_value_witness :
    "a" ≠ "" ∧ "b" ≠ "" ∧ isProtectedRoute "/dashboard" = true ∧
    (middleware { pathname := "/dashboard", url := "http://x", authTokenCookie := some "a" } =
        middleware { pathname := "/dashboard", url := "http://x", authTokenCookie := some "b" } ∧
      middleware { pathname := "/dashboard", url := "http://x", authTokenCookie := some "a" } =
        .next) :=
  ⟨by decide, by decide, by decide,
   (middleware_ignores_cookie_value "/dashboard" "http://x" "a" "b"
      (by decide) (by decide)).1,
   (middleware_ignores_cookie_value "/dashboard" "http://x" "a" "b"
      (by decide) (by decide)).2 (by decide)⟩

/-- C5: POST `/api/posts` returns 201 with `success: true` and appends
exactly one new post when the body has a title of 3–100 characters and
content of 10–1000 characters; when schema validation fails it returns 400
with error `Validation failed` and a per-field details list, and the
stored posts list is unchanged. -/
theorem POST_spec (posts : List Post) (body : PostBody) (t c : String)
    (ht1 : 3 ≤ t.length) (ht2 : t.length ≤ 100)
    (hc1 : 10 ≤ c.length) (hc2 : c.length ≤ 1000) :
    POST posts { title := some t, content := some c } =
      (posts ++ [{ id := (posts.length : Int) + 1, title := t, content := c }],
        { status := 201, success := true
          data := some { id := (posts.length : Int) + 1, title := t, content := c }
          error := none, details := none }) ∧
    ∀ issues, postSchemaParse body = .error issues →
      POST posts body =
        (posts, { status := 400, success := false, data := none
                  error := some "Validation failed", details := some issues }) := by
  have h1 : ¬ (t.length < 3) := by omega
  have h2 : ¬ (100 < t.length) := by omega
  have h3 : ¬ (c.length < 10) := by omega
  have h4 : ¬ (1000 < c.length) := by omega
  constructor
  · simp [POST, postSchemaParse, postSchemaIssues, fieldIssues, h1, h2, h3, h4]
  · intro issues hbad
    simp [POST, hbad]

theorem POST_spec_witness :
    POST initialMockPosts { title := some "abc", content := some "abcdefghij" } =
      (initialMockPosts ++
          [{ id := (initialMockPosts.length : Int) + 1, title := "abc", content := "abcdefghij" }],
        { status := 201, success := true
          data := some { id := (initialMockPosts.length : Int) + 1
                         title := "abc", content := "abcdefghij" }
          error := none, details := none }) ∧
    POST initialMockPosts { title := none, content := some "abcdefghij" } =
      (initialMockPosts,
        { status := 400, success := false, data := none
          error := some "Validation failed"
          details := some [{ field := "title", message := "Required" }] }) :=
  ⟨(POST_spec initialMockPosts { title := none, content := some "abcdefghij" }
      "abc" "abcdefghij" (by decide) (by decide) (by decide) (by decide)).1,
   (POST_spec initialMockPosts { title := none, content := some "abcdefghij" }
      "abc" "abcdefghij" (by decide) (by decide) (by decide) (by decide)).2
     [{ field := "title", message := "Required" }] (by rfl)⟩

/-- C6 counterexample: a PUT whose `id` query parameter matches no stored
post but whose body fails schema validation returns 400
`Validation failed`, not the claimed 404 `Post not found`: the handler
validates the body before looking the post up. -/
theorem PUT_no_match_invalid_body :
    initialMockPosts.all (fun p => ! postMatchesId "99" p) = true ∧
    (PUT initialMockPosts (some "99")
        { title := some "ab", content := some "short" }).2.status = 400 ∧
    (PUT initialMockPosts (some "99")
        { title := some "ab", content := some "short" }).2 ≠ notFoundResponse := by
  refine ⟨by decide, by decide, by decide⟩

/-- C6 (amended): PUT and DELETE on `/api/posts` return 400 with error
`Post ID is required` when the `id` query parameter is absent; when no
stored post's id equals the given id, DELETE returns 404 `Post not found`,
and PUT returns 404 provided its body passes schema validation (a body
failing validation yields 400 `Validation failed` instead, before the
lookup); in every one of these error cases the stored posts list is
unchanged. -/
theorem PUT_DELETE_error_spec (posts : List Post) (body badBody : PostBody)
    (id : String) (v : ValidatedPost) (issues : List ZodIssue)
    (hid : id ≠ "")
    (hnm : posts.all (fun p => ! postMatchesId id p) = true)
    (hv : postSchemaParse body = .ok v)
    (hbad : postSchemaParse badBody = .error issues) :
    PUT posts none body = (posts, idRequiredResponse) ∧
    DELETE posts none = (posts, idRequiredResponse) ∧
    PUT posts (some id) body = (posts, notFoundResponse) ∧
    DELETE posts (some id) = (posts, notFoundResponse) ∧
    PUT posts (some id) badBody =
      (posts, { status := 400, success := false, data := none
                error := some "Validation failed", details := some issues }) := by
  have hidb : (id == "") = false := beq_eq_false_iff_ne.mpr hid
  have hall : ∀ p ∈ posts, postMatchesId id p = false :=
    (all_not_iff_pred_false _ _).mp hnm
  have hup : updateFirst (postMatchesId id) v posts = none :=
    updateFirst_eq_none _ _ _ hall
  have hrm : removeFirst (postMatchesId id) posts = none :=
    removeFirst_eq_none _ _ hall
  refine ⟨rfl, rfl, ?_, ?_, ?_⟩
  · simp [PUT, hidb, hv, hup]
  · simp [DELETE, hidb, hrm]
  · simp [PUT, hidb, hbad]

theorem PUT_DELETE_error_spec_witness :
    PUT initialMockPosts none { title := some "abc", content := some "abcdefghij" } =
        (initialMockPosts, idRequiredResponse) ∧
    DELETE initialMockPosts none = (initialMockPosts, idRequiredResponse) ∧
    PUT initialMockPosts (some "99") { title := some "abc", content := some "abcdefghij" } =
        (initialMockPosts, notFoundResponse) ∧
    DELETE initialMockPosts (some "99") = (initialMockPosts, notFoundResponse) ∧
    PUT initialMockPosts (some "99") { title := some "ab", content := some "short" } =
        (initialMockPosts,
          { status := 400, success := false, data := none
            error := some "Validation failed"
            details := some
              [{ field := "title", message := "String must contain at least 3 character(s)" },
               { field := "content"
                 message := "String must contain at least 10 character(s)" }] }) :=
  PUT_DELETE_error_spec initialMockPosts
    { title := some "abc", content := some "abcdefghij" }
    { title := some "ab", content := some "short" } "99"
    { title := "abc", content := "abcdefghij" }
    [{ field := "title", message := "String must contain at least 3 character(s)" },
     { field := "content", message := "String must contain at least 10 character(s)" }]
    (by decide) (by decide) (by rfl) (by rfl)

/-- C7: on a successful PUT, only the matched post's title and content are
replaced by the validated body while its id and every other stored post
are unchanged; on a successful DELETE, exactly the first stored post whose
id matches is removed and all remaining posts are unchanged in their
relative order. -/
theorem PUT_DELETE_frame (pre suf : List Post) (old : Post) (id t c : String)
    (hid : id ≠ "")
    (hpre : pre.all (fun p => ! postMatchesId id p) = true)
    (hold : postMatchesId id old = true)
    (ht1 : 3 ≤ t.length) (ht2 : t.length ≤ 100)
    (hc1 : 10 ≤ c.length) (hc2 : c.length ≤ 1000) :
    PUT (pre ++ old :: suf) (some id) { title := some t, content := some c } =
      (pre ++ { id := old.id, title := t, content := c } :: suf,
        { status := 200, success := true
          data := some { id := old.id, title := t, content := c }
          error := none, details := none }) ∧
    DELETE (pre ++ old :: suf) (some id) =
      (pre ++ suf,
        { status := 200, success := true, data := some old
          error := none, details := none }) := by
  have hidb : (id == "") = false := beq_eq_false_iff_ne.mpr hid
  have hallpre : ∀ p ∈ pre, postMatchesId id p = false :=
    (all_not_iff_pred_false _ _).mp hpre
  have h1 : ¬ (t.length < 3) := by omega
  have h2 : ¬ (100 < t.length) := by omega
  have h3 : ¬ (c.length < 10) := by omega
  have h4 : ¬ (1000 < c.length) := by omega
  have hparse : postSchemaParse { title := some t, content := some c } =
      .ok { title := t, content := c } := by
    simp [postSchemaParse, postSchemaIssues, fieldIssues, h1, h2, h3, h4]
  constructor
  · simp [PUT, hidb, hparse,
      updateFirst_append (postMatchesId id) { title := t, content := c }
        pre suf old hallpre hold]
  · simp [DELETE, hidb,
      removeFirst_append (postMatchesId id) pre suf old hallpre hold]

theorem PUT_DELETE_frame_witness :
    PUT ([{ id := 1, title := "First Post", content := "This is the first post content" }] ++
          { id := 2, title := "Second Post", content := "This is the second post content" } ::
          [{ id := 3, title := "Third Post", content := "This is the third post content" }])
        (some "2") { title := some "abc", content := some "abcdefghij" } =
      ([{ id := 1, title := "First Post", content := "This is the first post content" }] ++
          { id := 2, title := "abc", content := "abcdefghij" } ::
          [{ id := 3, title := "Third Post", content := "This is the third post content" }],
        { status := 200, success := true
          data := some { id := 2, title := "abc", content := "abcdefghij" }
          error := none, details := none }) ∧
    DELETE ([{ id := 1, title := "First Post", content := "This is the first post content" }] ++
          { id := 2, title := "Second Post", content := "This is the second post content" } ::
          [{ id := 3, title := "Third Post", content := "This is the third post content" }])
        (some "2") =
      ([{ id := 1, title := "First Post", content := "This is the first post content" }] ++
          [{ id := 3, title := "Third Post", content := "This is the third post content" }],
        { status := 200, success := true
          data := some { id := 2, title := "Second Post"
                         content := "This is the second post content" }
          error := none, details := none }) :=
  PUT_DELETE_frame
    [{ id := 1, title := "First Post", content := "This is the first post content" }]
    [{ id := 3, title := "Third Post", content := "This is the third post content" }]
    { id := 2, title := "Second Post", content := "This is the second post content" }
    "2" "abc" "abcdefghij"
    (by decide) (by decide) (by decide) (by decide) (by decide) (by decide) (by decide)

/-- C8: `addPost` leaves the module-level posts list unchanged whenever it
reports failure, and when it reports success appends exactly one post with
the given title and content; hence after a failed submission the confirmed
(rendered, non-optimistic) list equals its pre-submission state. -/
theorem addPost_spec (posts : List Post) (title content : String) :
    addPost true posts title content =
      (posts, { success := false, post := none
                err := some "Failed to save post. Please try again." }) ∧
    addPost false posts title content =
      (posts ++ [{ id := (posts.length : Int) + 1, title := title, content := content }],
        { success := true
          post := some { id := (posts.length : Int) + 1, title := title, content := content }
          err := none }) ∧
    confirmedView (addPost true posts title content).1 = confirmedView posts :=
  ⟨rfl, rfl, rfl⟩

/-- C9: `getCachedPosts` carries the single label `posts` and returns the
same three-post list on every call; `revalidatePostsImmediately` and the
cache page's `handleAddPost` (on non-empty input) invalidate exactly the
`posts` label and mutate no other state, which under the glossary
semantics invalidates every cache entry sharing that label and leaves
entries without it untouched. -/
theorem cache_spec {σ : Type} (w : World σ) (title content : String) (ctx1 ctx2 : Nat)
    (ht : title ≠ "") (hc : content ≠ "") :
    getCachedPostsTags = ["posts"] ∧
    getCachedPosts ctx1 = getCachedPosts ctx2 ∧
    getCachedPosts ctx1 =
      [ { id := 1, title := "Post A", content := "Content A" },
        { id := 2, title := "Post B", content := "Content B" },
        { id := 3, title := "Post C", content := "Content C" } ] ∧
    revalidatePostsImmediately w = { w with cache := invalidateTag "posts" w.cache } ∧
    (revalidatePostsImmediately w).other = w.other ∧
    handleAddPost title content w = .ok { w with cache := invalidateTag "posts" w.cache } ∧
    (∀ i : Nat, ∀ e, w.cache[i]? = some e → e.tags.contains "posts" = true →
        (invalidateTag "posts" w.cache)[i]? = some { e with valid := false }) ∧
    (∀ i : Nat, ∀ e, w.cache[i]? = some e → e.tags.contains "posts" = false →
        (invalidateTag "posts" w.cache)[i]? = some e) := by
  have htb : (title == "") = false := beq_eq_false_iff_ne.mpr ht
  have hcb : (content == "") = false := beq_eq_false_iff_ne.mpr hc
  refine ⟨rfl, rfl, rfl, rfl, rfl, ?_, ?_, ?_⟩
  · simp [handleAddPost, htb, hcb]
  · intro i e hi he
    have hm : "posts" ∈ e.tags := by simpa using he
    simp [invalidateTag, List.getElem?_map, hi, hm]
  · intro i e hi he
    have hm : "posts" ∉ e.tags := by simpa using he
    simp [invalidateTag, List.getElem?_map, hi, hm]

theorem cache_spec_witness :
    handleAddPost "a" "b"
        ({ cache := [{ tags := ["posts"], valid := true }, { tags := ["other"], valid := true }]
           other := (0 : Nat) } : World Nat) =
      .ok { cache := [{ tags := ["posts"], valid := false }, { tags := ["other"], valid := true }]
            other := 0 } ∧
    revalidatePostsImmediately
        ({ cache := [{ tags := ["posts"], valid := true }], other := (0 : Nat) } : World Nat) =
      { cache := [{ tags := ["posts"], valid := false }], other := 0 } :=
  ⟨(@cache_spec Nat
      { cache := [{ tags := ["posts"], valid := true }, { tags := ["other"], valid := true }]
        other := 0 } "a" "b" 0 0 (by decide) (by decide)).2.2.2.2.2.1,
   (@cache_spec Nat
      { cache := [{ tags := ["posts"], valid := true }], other := 0 } "a" "b" 0 0
      (by decide) (by decide)).2.2.2.1⟩

/-- C10: every successful POST assigns the new post an id equal to the
number of stored posts before insertion plus one, without consulting
existing ids; consequently, after deleting the non-final post with id 1
from the initial store and POSTing a valid body, two stored posts share
the id 3. -/
theorem post_id_collision (posts : List Post) (t c : String)
    (ht1 : 3 ≤ t.length) (ht2 : t.length ≤ 100)
    (hc1 : 10 ≤ c.length) (hc2 : c.length ≤ 1000) :
    (POST posts { title := some t, content := some c }).1 =
      posts ++ [{ id := (posts.length : Int) + 1, title := t, content := c }] ∧
    ((POST (DELETE initialMockPosts (some "1")).1
        { title := some "abc", content := some "abcdefghij" }).1.map Post.id = [2, 3, 3] ∧
      ¬ ((POST (DELETE initialMockPosts (some "1")).1
        { title := some "abc", content := some "abcdefghij" }).1.map Post.id).Nodup) := by
  have h1 : ¬ (t.length < 3) := by omega
  have h2 : ¬ (100 < t.length) := by omega
  have h3 : ¬ (c.length < 10) := by omega
  have h4 : ¬ (1000 < c.length) := by omega
  refine ⟨?_, by decide, by decide⟩
  simp [POST, postSchemaParse, postSchemaIssues, fieldIssues, h1, h2, h3, h4]

theorem post_id_collision_witness :
    (POST initialMockPosts { title := some "abc", content := some "abcdefghij" }).1 =
      initialMockPosts ++
        [{ id := (initialMockPosts.length : Int) + 1, title := "abc", content := "abcdefghij" }] :=
  (post_id_collision initialMockPosts "abc" "abcdefghij"
    (by decide) (by decide) (by decide) (by decide)).1

end NextLessons
